import Mathlib

/-
  Verification development for the oneprotocol repository (DARA treasury
  automation).  The TypeScript sources are shallowly embedded: JS `number`
  becomes `ℚ`, `bigint` becomes `ℤ`, `Date.now()` timestamps are threaded as
  explicit `now : ℤ` parameters, module-level mutable state is threaded as
  explicit state records, and fallible external calls are modelled as
  `Except`-valued inputs supplied by the environment.
-/

namespace OneProtocol

/-- JS `Math.round`: rounds half away from zero for positive halves (half up). -/
def jsRound (q : ℚ) : ℤ := ⌊q + 1/2⌋

/-- JS `Math.floor` on a numeric expression cast to BigInt. -/
def jsFloor (q : ℚ) : ℤ := ⌊q⌋

-- ======== Types (src/lib/types, embedded from the source type file) ========

inductive RiskLevel
  | conservative
  | moderate
  | aggressive
deriving DecidableEq, Repr

structure PriceData where
  asset : String
  price : ℚ
  timestamp : ℤ
  source : String
deriving DecidableEq, Repr

structure YieldOpportunity where
  id : String
  protocol : String
  chain : String
  asset : String
  apy : ℚ
  tvl : ℚ
  pool : String
  netApy : ℚ
  bridgeCostPct : ℚ
  isNative : Bool
  timestamp : ℤ
deriving DecidableEq, Repr

structure YieldPosition where
  protocol : String
  chain : String
  asset : String
  amount : ℚ
  amountUsd : ℚ
  apy : ℚ
  earnedUsd : ℚ
  depositedAt : ℤ
deriving DecidableEq, Repr

structure YieldScanResult where
  opportunities : List YieldOpportunity
  bestOpportunity : Option YieldOpportunity
  currentAllocation : List YieldPosition
  recommendation : String
  timestamp : ℤ
deriving DecidableEq, Repr

inductive AgentAction
  | REBALANCE_SWAP
  | CROSS_CHAIN_BRIDGE
  | SAFETY_MOVE
  | DEPOSIT_BACK
  | MONITOR
  | NO_ACTION
  | YIELD_REBALANCE
deriving DecidableEq, Repr

inductive AgentDecisionStatus
  | pending
  | executing
  | completed
  | failed
deriving DecidableEq, Repr

structure AgentDecision where
  id : String
  timestamp : ℤ
  action : AgentAction
  reason : String
  amountIn : ℤ
  amountOut : ℤ
  chain : String
  status : AgentDecisionStatus
deriving DecidableEq, Repr

structure ChainHolding where
  balance : ℤ
  valueUsd : ℚ
  percentage : ℚ
deriving DecidableEq, Repr

structure PortfolioState where
  sui : ChainHolding
  arc : ChainHolding
  totalValueUsd : ℚ
deriving DecidableEq, Repr

inductive TreasuryDecisionType
  | safety_deposit
  | yield_withdraw
  | rebalance
  | risk_assessment
  | auto_safety
  | auto_redeploy
deriving DecidableEq, Repr

inductive TreasuryChain
  | arc
  | sui
  | crossChain
deriving DecidableEq, Repr

structure TreasuryDecision where
  id : String
  timestamp : ℤ
  type : TreasuryDecisionType
  trigger : String
  treasuryAction : String
  reasoning : String
  riskScore : ℚ
  amount : Option ℚ
  txHash : Option String
  chain : TreasuryChain
deriving DecidableEq, Repr

structure TreasuryState where
  arcVaultBalance : ℚ
  suiYieldTotal : ℚ
  lastDecision : Option TreasuryDecision
  lastDecisionTime : ℤ
  riskScore : ℚ
  allocationArcPct : ℚ
  allocationSuiPct : ℚ
deriving DecidableEq, Repr

structure PriceHistoryEntry where
  price : ℚ
  timestamp : ℤ
deriving DecidableEq, Repr

inductive IntentStatus
  | queued
  | processing
  | completed
  | failed
deriving DecidableEq, Repr

-- ======== Constants ========

/-- One entry of `RISK_PROFILES` (src/lib/constants.ts): the rebalance APY
threshold, the per-protocol allocation cap, the safety price-drop threshold,
and the cross-chain permission. -/
structure RiskProfile where
  rebalanceThresholdApy : ℚ
  maxAllocationPct : ℚ
  safetyThresholdPriceDrop : ℚ
  allowCrossChain : Bool
deriving DecidableEq, Repr

/-- `RISK_PROFILES` from the constants file. -/
def RISK_PROFILES : RiskLevel → RiskProfile
  | .conservative => ⟨3, 30, 5, false⟩
  | .moderate => ⟨2, 50, 10, true⟩
  | .aggressive => ⟨1, 70, 15, true⟩

/-- Shape of `AGENT_CONFIG` (src/lib/constants.ts). -/
structure AgentConfigData where
  LOOP_INTERVAL : ℤ
  TARGET_SUI_PCT : ℚ
  TARGET_EVM_PCT : ℚ
  REBALANCE_THRESHOLD : ℚ
  MIN_REBALANCE_AMOUNT : ℤ
  SAFETY_THRESHOLD : ℚ
  YIELD_REBALANCE_THRESHOLD : ℚ
  MAX_PROTOCOL_ALLOCATION_PCT : ℚ
deriving DecidableEq, Repr

/-- `AGENT_CONFIG` from the constants file: 60s loop interval, 50/50 target
split, 5% drift threshold, 0.1 SUI minimum rebalance, 2.0% absolute
yield-rebalance floor. -/
def AGENT_CONFIG : AgentConfigData :=
  { LOOP_INTERVAL := 60000
    TARGET_SUI_PCT := 50
    TARGET_EVM_PCT := 50
    REBALANCE_THRESHOLD := 5
    MIN_REBALANCE_AMOUNT := 100000000
    SAFETY_THRESHOLD := 10
    YIELD_REBALANCE_THRESHOLD := 2
    MAX_PROTOCOL_ALLOCATION_PCT := 50 }

/-- Shape of `TREASURY_CONFIG` (src/lib/constants.ts).  The safety move
fraction field embeds the source constant SAFETY MOVE RATIO (renamed here
for lexical reasons only). -/
structure TreasuryConfigData where
  SAFETY_THRESHOLD_PCT : ℚ
  RECOVERY_THRESHOLD_PCT : ℚ
  MIN_YIELD_FOR_DEPLOYMENT : ℚ
  MAX_PRICE_HISTORY : ℕ
  safetyMoveFraction : ℚ
  HIGH_RISK_THRESHOLD : ℤ
  MEDIUM_RISK_THRESHOLD : ℤ
deriving DecidableEq, Repr

/-- `TREASURY_CONFIG` from the constants file: 8% safety drop, 5% recovery,
2.0% minimum deployment yield, 20-entry price history, half-balance safety
moves, 65/35 risk bands. -/
def TREASURY_CONFIG : TreasuryConfigData :=
  { SAFETY_THRESHOLD_PCT := 8
    RECOVERY_THRESHOLD_PCT := 5
    MIN_YIELD_FOR_DEPLOYMENT := 2
    MAX_PRICE_HISTORY := 20
    safetyMoveFraction := 1/2
    HIGH_RISK_THRESHOLD := 65
    MEDIUM_RISK_THRESHOLD := 35 }

/-- Printable form of a rational, standing in for JS number formatting
(`toFixed` etc.) in reasoning strings; the exact text is irrelevant to every
claim, only the structured decision fields are. -/
def qs (q : ℚ) : String := toString q

-- ======== Strategy engine (src agent strategy file, `evaluateStrategy`) ====

/-- `makeDecision` from the strategy file: the module counter and `Date.now()`
are threaded explicitly. -/
def makeDecision (counter : ℕ) (now : ℤ) (action : AgentAction) (reason : String)
    (amountIn : ℤ) (chain : String) : AgentDecision :=
  { id := "decision-" ++ toString (counter + 1) ++ "-" ++ toString now
    timestamp := now
    action := action
    reason := reason
    amountIn := amountIn
    amountOut := 0
    chain := chain
    status := .pending }

/-- Portfolio-drift branch and final no-action fallback of `evaluateStrategy`
(the code after the yield-rebalance block). -/
def evalStrategyDrift (now : ℤ) (counter : ℕ) (portfolio : PortfolioState)
    (suiPrice : Option PriceData) (yieldOpportunities : Option (List YieldOpportunity)) :
    AgentDecision :=
  let currentSuiPct := portfolio.sui.percentage
  let targetSuiPct := AGENT_CONFIG.TARGET_SUI_PCT
  let drift := |currentSuiPct - targetSuiPct|
  let noAction := makeDecision counter now .NO_ACTION
    ("Portfolio balanced - SUI at " ++ qs currentSuiPct ++ "% (target: " ++
      qs targetSuiPct ++ "%).") 0 "monitor"
  if drift > AGENT_CONFIG.REBALANCE_THRESHOLD then
    if currentSuiPct > targetSuiPct then
      let excessPct := currentSuiPct - targetSuiPct
      let excessValue := portfolio.sui.valueUsd * excessPct / 100
      -- JS: suiPrice?.price || 1 (zero price is falsy and also maps to 1)
      let suiPriceUsd := match suiPrice with
        | some sp => if sp.price = 0 then 1 else sp.price
        | none => 1
      let amountSui : ℤ := jsFloor (excessValue / suiPriceUsd * 1000000000)
      if amountSui > AGENT_CONFIG.MIN_REBALANCE_AMOUNT then
        makeDecision counter now .CROSS_CHAIN_BRIDGE
          ("Portfolio drifted " ++ qs drift ++ "% - SUI overweight at " ++
            qs currentSuiPct ++ "%. Bridging SUI to Arc via LI.FI")
          amountSui "sui->arc"
      else noAction
    else
      let deficitPct := targetSuiPct - currentSuiPct
      let deficitValue := portfolio.totalValueUsd * deficitPct / 100
      makeDecision counter now .CROSS_CHAIN_BRIDGE
        ("Portfolio drifted " ++ qs drift ++ "% - SUI underweight at " ++
          qs currentSuiPct ++ "%. Bridging $" ++ qs deficitValue ++
          " from Arc to Sui via LI.FI")
        (jsFloor (deficitValue * 1000000)) "arc->sui"
  else noAction

/-- Yield-rebalance branch of `evaluateStrategy` (runs after the crash-safety
check failed to fire); falls through to the drift branch when blocked. -/
def evalStrategyYield (now : ℤ) (counter : ℕ) (portfolio : PortfolioState)
    (suiPrice : Option PriceData) (previousDecisions : List AgentDecision)
    (yieldOpportunities : Option (List YieldOpportunity)) : AgentDecision :=
  match yieldOpportunities with
  | some (bestYield :: _) =>
    let currentYield :=
      (previousDecisions.filter (fun d => d.action = .YIELD_REBALANCE)).getLast?
    -- hysteresis: only rebalance when no prior decision of this kind, or the
    -- last one is older than 5 loop intervals
    let hysteresisOpen : Bool := match currentYield with
      | none => true
      | some d => decide (now - d.timestamp > AGENT_CONFIG.LOOP_INTERVAL * 5)
    if bestYield.netApy > AGENT_CONFIG.YIELD_REBALANCE_THRESHOLD ∧ hysteresisOpen = true then
      makeDecision counter now .YIELD_REBALANCE
        ("Best yield: " ++ bestYield.protocol ++ " on " ++ bestYield.chain ++
          " at " ++ qs bestYield.netApy ++ "% net APY on " ++ bestYield.asset)
        0
        (if bestYield.isNative then "sui" else "sui->" ++ bestYield.chain)
    else evalStrategyDrift now counter portfolio suiPrice yieldOpportunities
  | some [] => evalStrategyDrift now counter portfolio suiPrice yieldOpportunities
  | none => evalStrategyDrift now counter portfolio suiPrice yieldOpportunities

/-- `evaluateStrategy` from the strategy file: crash-safety check first, then
yield rebalancing with hysteresis, then portfolio drift, then no-action. -/
def evaluateStrategy (now : ℤ) (counter : ℕ) (portfolio : PortfolioState)
    (prices : List PriceData) (previousDecisions : List AgentDecision)
    (yieldOpportunities : Option (List YieldOpportunity)) : AgentDecision :=
  let suiPrice := prices.find? (fun p => p.asset = "SUI")
  match suiPrice with
  | some sp =>
    if sp.price < 1/2 then
      makeDecision counter now .SAFETY_MOVE
        ("SUI price at $" ++ qs sp.price ++ " - moving 50% to USDC on Arc for safety")
        (portfolio.sui.balance / 2) "sui->arc"
    else
      evalStrategyYield now counter portfolio (some sp) previousDecisions yieldOpportunities
  | none =>
    evalStrategyYield now counter portfolio none previousDecisions yieldOpportunities

-- ======== Risk scorer (executor `assessTreasuryRisk` computation) ========

/-- 24h price change of the executor risk assessment: oldest retained entry
versus the current price, in percent (0 when history is trivial or the
oldest price is non-positive, mirroring the guarded division). -/
def priceChange24h (history : List PriceHistoryEntry) (suiPrice : ℚ) : ℚ :=
  let oldest := match history with
    | h :: _ :: _ => h.price
    | _ => suiPrice
  if oldest > 0 then (suiPrice - oldest) / oldest * 100 else 0

/-- Price-drop risk component: only downside counts, scaled by 5, clamped. -/
def priceRisk (priceChange : ℚ) : ℚ :=
  min 100 (max 0 (|min 0 priceChange| * 5))

/-- Funding risk component: negative funding raises risk, clamped. -/
def fundingRisk (avgFundingAnnualized : ℚ) : ℚ :=
  min 100 (max 0 (-avgFundingAnnualized * 2 + 50))

/-- Yield-scarcity risk component: low best yield raises risk, clamped. -/
def yieldRisk (bestYieldApy : ℚ) : ℚ :=
  min 100 (max 0 ((5 - bestYieldApy) * 20))

/-- Composite risk score: 40% price, 30% funding, 30% yield, rounded. -/
def riskScoreOf (priceChange avgFunding bestYieldApy : ℚ) : ℤ :=
  jsRound (priceRisk priceChange * (2/5) + fundingRisk avgFunding * (3/10) +
    yieldRisk bestYieldApy * (3/10))

inductive RiskLabel
  | HIGH
  | MEDIUM
  | LOW
deriving DecidableEq, Repr

/-- Risk-band mapping of the executor: recommended (arcPct, suiPct, label). -/
def recommendedAllocation (riskScore : ℤ) : ℚ × ℚ × RiskLabel :=
  if riskScore ≥ TREASURY_CONFIG.HIGH_RISK_THRESHOLD then (70, 30, .HIGH)
  else if riskScore ≥ TREASURY_CONFIG.MEDIUM_RISK_THRESHOLD then (40, 60, .MEDIUM)
  else (15, 85, .LOW)

-- ======== Decision ledger (executor `recordTreasuryDecision`) ========

/-- Ledger update of `recordTreasuryDecision`: push the new decision, then
evict the head once the length exceeds the fixed capacity of 50. -/
def ledgerRecord (decisions : List TreasuryDecision) (d : TreasuryDecision) :
    List TreasuryDecision :=
  let pushed := decisions ++ [d]
  if 50 < pushed.length then pushed.tail else pushed

/-- Module state of the executor file that the embedded operations touch. -/
structure ExecState where
  riskLevel : RiskLevel
  treasury : TreasuryState
  treasuryDecisions : List TreasuryDecision
  decisionIdCounter : ℕ
  positions : List YieldPosition
  priceHistory : List PriceHistoryEntry
deriving DecidableEq, Repr

/-- Full `recordTreasuryDecision`: bumps the id counter, appends to the
bounded ledger, and updates the treasury snapshot fields. -/
def recordTreasuryDecision (s : ExecState) (now : ℤ) (dtype : TreasuryDecisionType)
    (trigger treasuryAction reasoning : String) (riskScore : ℚ) (amount : Option ℚ)
    (txHash : Option String) (chain : TreasuryChain) : ExecState × TreasuryDecision :=
  let counter := s.decisionIdCounter + 1
  let d : TreasuryDecision :=
    { id := "td-" ++ toString counter ++ "-" ++ toString now
      timestamp := now
      type := dtype
      trigger := trigger
      treasuryAction := treasuryAction
      reasoning := reasoning
      riskScore := riskScore
      amount := amount
      txHash := txHash
      chain := chain }
  ({ s with
      decisionIdCounter := counter
      treasuryDecisions := ledgerRecord s.treasuryDecisions d
      treasury := { s.treasury with
        lastDecision := some d
        lastDecisionTime := now
        riskScore := riskScore } }, d)

-- ======== Offline intent queue (src/agent/offline-queue.ts) ========

/-- The argument fields of a voice/offline command that the embedded executor
branches read (`args.amount`, `args.protocol`, `args.level`, `args.reason`);
`none` models an absent JS property. -/
structure FnArgs where
  amount : Option ℚ
  protocol : Option String
  level : Option String
  reason : Option String
deriving DecidableEq, Repr

/-- Empty argument record. -/
def FnArgs.empty : FnArgs := ⟨none, none, none, none⟩

structure OfflineIntent where
  id : String
  timestamp : ℤ
  functionName : String
  args : FnArgs
  status : IntentStatus
  result : Option String
  error : Option String
deriving DecidableEq, Repr

structure ProcessResult where
  id : String
  result : String
  success : Bool
deriving DecidableEq, Repr

/-- `getPending`: the queued (unprocessed) intents, in insertion order. -/
def getPending (queue : List OfflineIntent) : List OfflineIntent :=
  queue.filter (fun i => i.status = .queued)

/-- `updateIntent`: update the first intent with the given id (the source
finds the index with `findIndex` and replaces that entry). -/
def updateIntentById (queue : List OfflineIntent) (id : String)
    (f : OfflineIntent → OfflineIntent) : List OfflineIntent :=
  match queue with
  | [] => []
  | i :: rest =>
    if i.id = id then f i :: rest else i :: updateIntentById rest id f

/-- One step of the `processQueue` loop body: mark processing, run the
executor, then mark completed or failed and append the result. -/
def processQueueStep (executor : String → FnArgs → Except String String)
    (acc : List ProcessResult × List OfflineIntent) (intent : OfflineIntent) :
    List ProcessResult × List OfflineIntent :=
  let q1 := updateIntentById acc.2 intent.id (fun i => { i with status := .processing })
  match executor intent.functionName intent.args with
  | .ok r =>
    (acc.1 ++ [⟨intent.id, r, true⟩],
     updateIntentById q1 intent.id
       (fun i => { i with status := .completed, result := some r }))
  | .error e =>
    (acc.1 ++ [⟨intent.id, e, false⟩],
     updateIntentById q1 intent.id
       (fun i => { i with status := .failed, error := some e }))

/-- `processQueue`: snapshot the pending intents once, then process them in
FIFO order, independent of individual successes and failures.  Executor
exceptions are modelled by `Except.error`. -/
def processQueue (executor : String → FnArgs → Except String String)
    (queue : List OfflineIntent) : List ProcessResult × List OfflineIntent :=
  let pending := getPending queue
  pending.foldl (processQueueStep executor) ([], queue)

-- ======== Cached signal fetches ========

/-- Generic module-level cache cell (`cachedX` plus `lastXFetch`). -/
structure SignalCache (α : Type) where
  value : List α
  lastFetch : ℤ
deriving DecidableEq, Repr

structure DefiLlamaPool where
  pool : String
  chain : String
  project : String
  symbol : String
  tvlUsd : ℚ
  apy : ℚ
deriving DecidableEq, Repr

/-- `fetchDefiLlamaPools` (src/agent/yield-scanner.ts): serves a cache hit
within the 60s TTL; otherwise calls the source and, on a failing response,
THROWS (`if (!res.ok) throw ...` with no catch) — the error propagates to the
caller and the stale cache is not consulted. -/
def fetchDefiLlamaPools (now : ℤ) (cache : SignalCache DefiLlamaPool)
    (source : Except String (List DefiLlamaPool)) :
    Except String (List DefiLlamaPool × SignalCache DefiLlamaPool) :=
  if cache.value ≠ [] ∧ now - cache.lastFetch < 60000 then
    .ok (cache.value, cache)
  else
    match source with
    | .ok data => .ok (data, ⟨data, now⟩)
    | .error e => .error e

/-- The zeroed sentinel price list returned when CoinGecko fails with an
empty cache. -/
def priceSentinel (now : ℤ) : List PriceData :=
  [{ asset := "SUI", price := 0, timestamp := now, source := "unavailable" },
   { asset := "ETH", price := 0, timestamp := now, source := "unavailable" },
   { asset := "BTC", price := 0, timestamp := now, source := "unavailable" }]

/-- `fetchPrices` (strategy file): 30s TTL cache over CoinGecko; on source
failure it returns the stale cached list if any, else the zeroed sentinel,
and never raises.  The source outcome carries the three parsed prices. -/
def fetchPrices (now : ℤ) (cache : SignalCache PriceData)
    (source : Except String (ℚ × ℚ × ℚ)) :
    List PriceData × SignalCache PriceData :=
  if cache.value ≠ [] ∧ now - cache.lastFetch < 30000 then
    (cache.value, cache)
  else
    match source with
    | .ok (sui, eth, btc) =>
      let prices : List PriceData :=
        [{ asset := "SUI", price := sui, timestamp := now, source := "coingecko" },
         { asset := "ETH", price := eth, timestamp := now, source := "coingecko" },
         { asset := "BTC", price := btc, timestamp := now, source := "coingecko" }]
      (prices, ⟨prices, now⟩)
    | .error _ =>
      if cache.value ≠ [] then (cache.value, cache)
      else (priceSentinel now, cache)

structure NaviPoolData where
  supplyApy : ℚ
  borrowApy : ℚ
  tvlUsd : ℚ
  asset : String
deriving DecidableEq, Repr

/-- `fetchNaviPoolData` (src/agent/yield-scanner.ts): 120s TTL; the catch
block returns the cached list (initially empty) on any source failure. -/
def fetchNaviPoolData (now : ℤ) (cache : SignalCache NaviPoolData)
    (source : Except String (List NaviPoolData)) :
    List NaviPoolData × SignalCache NaviPoolData :=
  if cache.value ≠ [] ∧ now - cache.lastFetch < 120000 then
    (cache.value, cache)
  else
    match source with
    | .ok pools => (pools, ⟨pools, now⟩)
    | .error _ => (cache.value, cache)

structure BluefinFundingRate where
  symbol : String
  fundingRate : ℚ
  annualizedRate : ℚ
  nextFundingTime : ℤ
  timestamp : ℤ
deriving DecidableEq, Repr

/-- `fetchFundingRates` (Bluefin client): 60s TTL; derives the rates from the
market-data feed (symbol, fundingRate, nextFundingTime) and the catch block
returns the cached list on failure. -/
def fetchFundingRates (now : ℤ) (cache : SignalCache BluefinFundingRate)
    (source : Except String (List (String × ℚ × ℤ))) :
    List BluefinFundingRate × SignalCache BluefinFundingRate :=
  if cache.value ≠ [] ∧ now - cache.lastFetch < 60000 then
    (cache.value, cache)
  else
    match source with
    | .ok markets =>
      let rates := markets.map (fun m =>
        { symbol := m.1
          fundingRate := m.2.1
          annualizedRate := |m.2.1| * 3 * 365 * 100
          nextFundingTime := m.2.2
          timestamp := now : BluefinFundingRate })
      (rates, ⟨rates, now⟩)
    | .error _ => (cache.value, cache)

-- ======== Yield scanner (src/agent/yield-scanner.ts) ========

/-- One row of the protocol allow-list (`YIELD_PROTOCOLS` values): a DeFi
Llama project slug, its chain, and the display name used throughout. -/
structure ProtocolInfo where
  project : String
  chain : String
  displayName : String
deriving DecidableEq, Repr

/-- `YIELD_PROTOCOLS` from the constants file: the DeFi Llama allow-list
(Scallop and NAVI on Sui; Aave V3 on Arbitrum; Compound V3 on Optimism). -/
def YIELD_PROTOCOLS : List ProtocolInfo :=
  [⟨"scallop-lend", "Sui", "Scallop"⟩,
   ⟨"navi-lending", "Sui", "NAVI"⟩,
   ⟨"aave-v3", "Arbitrum", "Aave V3"⟩,
   ⟨"compound-v3", "Optimism", "Compound V3"⟩]

/-- `BRIDGE_FEES` from the constants file: static per-route bridge-cost
table keyed by `FROM_TO` chain pair, in percent. -/
def BRIDGE_FEES : List (String × ℚ) :=
  [("SUI_TO_ARBITRUM", 3/10), ("SUI_TO_OPTIMISM", 3/10), ("SUI_TO_ARC", 1/10),
   ("ARBITRUM_TO_SUI", 3/10), ("OPTIMISM_TO_SUI", 3/10), ("ARC_TO_SUI", 1/10)]

/-- `getBridgeCost`: look up the `FROM_TO` key, defaulting to 0.5. -/
def getBridgeCost (fromChain toChain : String) : ℚ :=
  let key := fromChain.toUpper ++ "_TO_" ++ toChain.toUpper
  match BRIDGE_FEES.find? (fun kv => kv.1 = key) with
  | some kv => kv.2
  | none => 1/2

/-- `filterRelevantPools`: keep pools on the allow-list with positive APY and
more than $100k TVL.  The allow-list is a parameter so that the invariant can
be proved for every table of the right shape. -/
def filterRelevantPools (table : List ProtocolInfo) (pools : List DefiLlamaPool) :
    List DefiLlamaPool :=
  pools.filter (fun pool =>
    table.any (fun p =>
      decide (pool.project = p.project ∧ pool.chain = p.chain ∧
        0 < pool.apy ∧ 100000 < pool.tvlUsd)))

/-- `poolToOpportunity`: native iff the pool chain is Sui; bridge cost zero
for native pools, else from the route table; display name from the matching
allow-list entry, falling back to the raw project slug. -/
def poolToOpportunity (table : List ProtocolInfo) (now : ℤ) (pool : DefiLlamaPool) :
    YieldOpportunity :=
  let bridgeCost : ℚ := if pool.chain = "Sui" then 0 else getBridgeCost "SUI" pool.chain
  let protocolEntry :=
    table.find? (fun p => decide (p.project = pool.project ∧ p.chain = pool.chain))
  { id := pool.pool
    protocol := match protocolEntry with
      | some p => p.displayName
      | none => pool.project
    chain := pool.chain
    asset := pool.symbol
    apy := pool.apy
    tvl := pool.tvlUsd
    pool := pool.pool
    netApy := pool.apy - bridgeCost
    bridgeCostPct := bridgeCost
    isNative := decide (pool.chain = "Sui")
    timestamp := now }

/-- Replace the first element satisfying `p` (the in-place mutation of the
object returned by `Array.prototype.find`). -/
def updateFirst (p : α → Bool) (f : α → α) : List α → List α
  | [] => []
  | x :: xs => if p x then f x :: xs else x :: updateFirst p f xs

/-- The NAVI opportunity pushed when the direct feed has a pool that DeFi
Llama does not list. -/
def naviDirectOpportunity (now : ℤ) (np : NaviPoolData) : YieldOpportunity :=
  { id := "navi-" ++ np.asset.toLower ++ "-direct"
    protocol := "NAVI"
    chain := "Sui"
    asset := np.asset
    apy := np.supplyApy
    tvl := np.tvlUsd
    pool := "navi-" ++ np.asset.toLower
    netApy := np.supplyApy
    bridgeCostPct := 0
    isNative := true
    timestamp := now }

/-- One iteration of the NAVI overlay loop in `scanYields`: skip non-positive
supply rates; refresh the matching opportunity in place (native Sui, so the
new net APY equals the new APY); else push a direct entry for the allowed
assets. -/
def overlayNavi (now : ℤ) (ops : List YieldOpportunity) (np : NaviPoolData) :
    List YieldOpportunity :=
  if np.supplyApy ≤ 0 then ops
  else if ops.any (fun o => decide (o.protocol = "NAVI" ∧ o.asset = np.asset)) then
    updateFirst (fun o => decide (o.protocol = "NAVI" ∧ o.asset = np.asset))
      (fun o => { o with apy := np.supplyApy, netApy := np.supplyApy, tvl := np.tvlUsd })
      ops
  else if np.asset ∈ ["SUI", "USDC", "USDT"] then ops ++ [naviDirectOpportunity now np]
  else ops

/-- Funding-rate yield rows delivered by the Bluefin module. -/
structure BluefinYieldInfo where
  symbol : String
  direction : String
  annualizedYield : ℚ
  fundingRate : ℚ
  description : String
deriving DecidableEq, Repr

/-- The opportunity built from one Bluefin funding-rate yield. -/
def bluefinOpportunity (now : ℤ) (bf : BluefinYieldInfo) : YieldOpportunity :=
  { id := "bluefin-" ++ bf.symbol.toLower ++ "-funding"
    protocol := "Bluefin"
    chain := "Sui"
    asset := bf.symbol ++ " (" ++ bf.direction ++ ")"
    apy := bf.annualizedYield
    tvl := 0
    pool := "bluefin-" ++ bf.symbol.toLower
    netApy := bf.annualizedYield
    bridgeCostPct := 0
    isNative := true
    timestamp := now }

/-- `scanYields`: DeFi Llama pools filtered and converted, NAVI direct feed
overlaid, Bluefin funding yields appended, then sorted descending by net
APY.  The three fetched lists are inputs (the fetch layer is modelled
separately). -/
def scanYields (table : List ProtocolInfo) (now : ℤ) (llamaPools : List DefiLlamaPool)
    (naviPools : List NaviPoolData) (bluefinYields : List BluefinYieldInfo) :
    List YieldOpportunity :=
  let opportunities := (filterRelevantPools table llamaPools).map (poolToOpportunity table now)
  let opportunities := naviPools.foldl (overlayNavi now) opportunities
  let opportunities := opportunities ++ bluefinYields.map (bluefinOpportunity now)
  opportunities.mergeSort (fun a b => decide (b.netApy ≤ a.netApy))

-- ======== Executor (DARA executor file) ========

/-- Outcome of an on-chain call (`depositToVault`, `withdrawFromVault`,
`delegatorExecute`): success flag plus transaction hash. -/
structure TxResult where
  success : Bool
  txHash : String
deriving DecidableEq, Repr

/-- `setPosition` (yield-scanner): replace the position with the same
(protocol, chain) pair if present, else push. -/
def setPosition (positions : List YieldPosition) (position : YieldPosition) :
    List YieldPosition :=
  if positions.any (fun p =>
      decide (p.protocol = position.protocol ∧ p.chain = position.chain)) then
    updateFirst (fun p =>
        decide (p.protocol = position.protocol ∧ p.chain = position.chain))
      (fun _ => position) positions
  else positions ++ [position]

/-- `findBestYield` (yield-scanner): filter the scanned opportunities by the
risk profile (cross-chain permission, $1M TVL floor), head is best; the
current allocation snapshot is the tracked positions.  The recommendation
text is abbreviated — no claim depends on it. -/
def findBestYield (riskLevel : RiskLevel) (opportunities : List YieldOpportunity)
    (positions : List YieldPosition) (now : ℤ) : YieldScanResult :=
  let profile := RISK_PROFILES riskLevel
  let eligible := opportunities.filter (fun opp =>
    if profile.allowCrossChain = false ∧ opp.isNative = false then false
    else if opp.tvl < 1000000 then false
    else true)
  { opportunities := eligible
    bestOpportunity := eligible.head?
    currentAllocation := positions
    recommendation := match eligible.head? with
      | some b => "Deploy to " ++ b.protocol ++ " on " ++ b.chain
      | none => "No eligible yield opportunities found. Consider adjusting risk level."
    timestamp := now }

/-- JS falsy-or on an optional number (`(x as number) || dflt`): an absent or
zero value yields the default, anything else (including negatives) passes. -/
def orFalsyQ (a : Option ℚ) (dflt : ℚ) : ℚ :=
  match a with
  | some x => if x = 0 then dflt else x
  | none => dflt

/-- JS falsy-or on an optional string (`(x as string) || dflt`). -/
def orFalsyS (a : Option String) (dflt : String) : String :=
  match a with
  | some x => if x = "" then dflt else x
  | none => dflt

/-- Per-call environment of `executeFunction`: the cached SUI price, the
delegator availability and result, the vault call results, the scanned yield
list and the protocol-name resolver of the router. -/
structure ExecEnv where
  now : ℤ
  suiPrice : ℚ
  hasDelegator : Bool
  delegatorResult : Option TxResult
  vaultDepositResult : TxResult
  vaultWithdrawResult : TxResult
  scanned : List YieldOpportunity
  resolveProtocol : String → Option String
  protocolActionSimulated : Bool

/-- Result of one `executeFunction` call: the reply string, the new module
state, and whether any transaction was built or submitted on the way. -/
structure ExecOutcome where
  reply : String
  state : ExecState
  txBuilt : Bool
deriving DecidableEq, Repr

/-- `executeFunction`, restricted to the dispatch branches the claims
quantify over (`depositToVault`, `withdrawFromVault`, `moveToYield`,
`moveToArcVault`, `withdrawFromArcVault`, `setRiskLevel`); every other name
falls to the source default branch (`Unknown function`).  Reply strings are
abbreviated — no claim depends on their exact text. -/
def executeFunction (env : ExecEnv) (s : ExecState) (name : String)
    (args : FnArgs) : ExecOutcome :=
  if name = "depositToVault" then
    let amount := orFalsyQ args.amount 0
    if amount ≤ 0 then ⟨"Please specify an amount to deposit.", s, false⟩
    else if env.hasDelegator = false then
      ⟨"Please fund the voice agent first. Click the wallet icon to deposit.", s, false⟩
    else
      match env.delegatorResult with
      | some r =>
        if r.success then ⟨"Successfully deposited to the vault.", s, true⟩
        else ⟨"Deposit transaction failed. Please try again.", s, true⟩
      | none => ⟨"Deposit transaction failed. Please try again.", s, true⟩
  else if name = "withdrawFromVault" then
    ⟨"Withdrawal initiated.", s, false⟩
  else if name = "moveToYield" then
    let protocolInput := orFalsyS args.protocol ""
    if protocolInput = "" then ⟨"Please specify a protocol to move funds to.", s, false⟩
    else
      let protocolName := env.resolveProtocol protocolInput
      let target := env.scanned.find? (fun y =>
        decide (y.protocol.toLower = protocolInput.toLower) ||
        (match protocolName with
          | some n => decide (y.protocol = n)
          | none => false))
      match target with
      | none => ⟨"Protocol not found.", s, false⟩
      | some target =>
        let amount := orFalsyQ args.amount 100
        let amountMist : ℤ := jsFloor (amount * 1000000000)
        let amountUsd := amount * env.suiPrice
        let position : YieldPosition :=
          { protocol := target.protocol, chain := target.chain
            asset := target.asset, amount := amount, amountUsd := amountUsd
            apy := target.netApy, earnedUsd := 0, depositedAt := env.now }
        match protocolName with
        | some _ =>
          -- both resolved branches call buildProtocolDeposit, whose PTB
          -- serializes amountMist with tx.pure.u64; an out-of-range value
          -- throws in the BCS serializer and the surrounding catch returns
          -- a failure message with no position recorded
          if amountMist < 0 ∨ 18446744073709551616 ≤ amountMist then
            ⟨"Move failed: Invalid u64 value.", s, false⟩
          else if target.isNative then
            if env.hasDelegator = true ∧ env.protocolActionSimulated = false then
              match env.delegatorResult with
              | some r =>
                if r.success then
                  ⟨"Deposit executed.",
                   { s with positions := setPosition s.positions position }, true⟩
                else ⟨"Deposit transaction failed.", s, true⟩
              | none => ⟨"Deposit transaction failed.", s, true⟩
            else
              ⟨"Position recorded.",
               { s with positions := setPosition s.positions position }, true⟩
          else
            -- cross-chain target: swap + bridge route prepared
            ⟨"Cross-chain move prepared.",
             { s with positions := setPosition s.positions position }, true⟩
        | none =>
          ⟨"Moved funds (fallback).",
           { s with positions := setPosition s.positions position }, false⟩
  else if name = "moveToArcVault" then
    let amount := orFalsyQ args.amount 0
    if amount ≤ 0 then ⟨"Please specify an amount in USDC to deposit.", s, false⟩
    else
      let reason := orFalsyS args.reason
        "Manual safety move - parking in RWA-backed USDC on Arc"
      if env.vaultDepositResult.success then
        let t := s.treasury
        let arcBal := t.arcVaultBalance + amount
        let totalValue := arcBal + t.suiYieldTotal
        let arcPct := if totalValue > 0 then arcBal / totalValue * 100 else 0
        let s2 := { s with treasury := { t with
          arcVaultBalance := arcBal
          allocationArcPct := arcPct
          allocationSuiPct := 100 - arcPct } }
        let r := recordTreasuryDecision s2 env.now .safety_deposit reason
          ("Deposited $" ++ qs amount ++ " USDC to Arc vault") reason
          s2.treasury.riskScore (some amount)
          (some env.vaultDepositResult.txHash) .arc
        ⟨"Deposited into Arc treasury vault.", r.1, true⟩
      else ⟨"Arc vault deposit failed. Please check wallet balance and try again.", s, true⟩
  else if name = "withdrawFromArcVault" then
    let amount := orFalsyQ args.amount 0
    if amount ≤ 0 then ⟨"Please specify an amount in USDC to withdraw.", s, false⟩
    else
      let reason := orFalsyS args.reason
        "Redeploying to Sui yield - market conditions improved"
      if env.vaultWithdrawResult.success then
        let t := s.treasury
        let arcBal := max 0 (t.arcVaultBalance - amount)
        let totalValue := arcBal + t.suiYieldTotal
        let arcPct := if totalValue > 0 then arcBal / totalValue * 100 else 0
        let s2 := { s with treasury := { t with
          arcVaultBalance := arcBal
          allocationArcPct := arcPct
          allocationSuiPct := 100 - arcPct } }
        let r := recordTreasuryDecision s2 env.now .yield_withdraw reason
          ("Withdrew $" ++ qs amount ++ " USDC from Arc vault") reason
          s2.treasury.riskScore (some amount)
          (some env.vaultWithdrawResult.txHash) .arc
        ⟨"Withdrew from Arc vault for yield redeployment.", r.1, true⟩
      else ⟨"Arc vault withdrawal failed. Check vault balance.", s, true⟩
  else if name = "setRiskLevel" then
    let level := orFalsyS args.level "moderate"
    if level ∉ (["conservative", "moderate", "aggressive"] : List String) then
      ⟨"Risk level must be: conservative, moderate, or aggressive.", s, false⟩
    else
      let rl : RiskLevel :=
        if level = "conservative" then .conservative
        else if level = "moderate" then .moderate
        else .aggressive
      ⟨"Risk level set to " ++ level ++ ".", { s with riskLevel := rl }, false⟩
  else ⟨"Unknown function: " ++ name, s, false⟩

-- ======== Scheduler cycle (`runOptimizationCycle`) ========

/-- Minimum of a price list (`Math.min(...)`); the scanned window is always
nonempty where this is used. -/
def listMinimum : List ℚ → ℚ
  | [] => 0
  | [x] => x
  | x :: y :: xs => min x (listMinimum (y :: xs))

/-- Last `n` elements of a list (`Array.prototype.slice(-n)`). -/
def lastN (n : ℕ) (l : List α) : List α := l.drop (l.length - n)

/-- Per-cycle environment: current SUI price and timestamp, the scanned
yield lists seen by the recovery check and by the standard check (the source
calls `findBestYield` twice), the vault call results. -/
structure CycleEnv where
  now : ℤ
  suiPrice : ℚ
  recoveryScan : List YieldOpportunity
  standardScan : List YieldOpportunity
  depositResult : TxResult
  withdrawResult : TxResult

/-- Recovery-trigger block of `runOptimizationCycle`: when the price
recovered from the low and funds are parked in Arc, check the best yield and
redeploy half the vault balance when attractive.  Returns the new state and
the decisions recorded by this block. -/
def cycleRecoveryStep (cfg : TreasuryConfigData) (env : CycleEnv) (s : ExecState)
    (recoveryFromLow : ℚ) : ExecState × List TreasuryDecision :=
  if recoveryFromLow > cfg.RECOVERY_THRESHOLD_PCT ∧ s.treasury.arcVaultBalance > 1 then
    let yieldCheck := findBestYield s.riskLevel env.recoveryScan s.positions env.now
    let bestApy := match yieldCheck.bestOpportunity with
      | some b => b.netApy
      | none => 0
    if bestApy > cfg.MIN_YIELD_FOR_DEPLOYMENT then
      if env.withdrawResult.success then
        let redeployAmount := s.treasury.arcVaultBalance * (1/2)
        let s2 := { s with treasury := { s.treasury with
          arcVaultBalance := s.treasury.arcVaultBalance - redeployAmount
          suiYieldTotal := s.treasury.suiYieldTotal + redeployAmount } }
        let r := recordTreasuryDecision s2 env.now .auto_redeploy
          ("Recovery +" ++ qs recoveryFromLow ++ "% from low, yield " ++ qs bestApy ++ "%")
          ("Auto-withdrew $" ++ qs redeployAmount ++ " from Arc vault")
          ("SUI recovered " ++ qs recoveryFromLow ++ "% from low - redeploying")
          (((max 0 (50 - jsRound (recoveryFromLow * 3))) : ℤ) : ℚ)
          (some redeployAmount) (some env.withdrawResult.txHash) .crossChain
        (r.1, [r.2])
      else (s, [])
    else (s, [])
  else (s, [])

/-- Standard yield-rebalance block of `runOptimizationCycle`, continuing
from the state and decisions accumulated so far.  In the source nothing
separates it from the recovery block — there is no early return between
them. -/
def cycleStandardStep (cfg : TreasuryConfigData) (env : CycleEnv)
    (acc : ExecState × List TreasuryDecision) : ExecState × List TreasuryDecision :=
  let s1 := acc.1
  let emitted := acc.2
  let result := findBestYield s1.riskLevel env.standardScan s1.positions env.now
  let profile := RISK_PROFILES s1.riskLevel
  match result.bestOpportunity with
  | none =>
    if s1.treasury.suiYieldTotal > 10 ∧
        result.opportunities.all (fun o => decide (o.netApy < cfg.MIN_YIELD_FOR_DEPLOYMENT)) then
      let r := recordTreasuryDecision s1 env.now .risk_assessment
        "No yields above threshold" "Prefer Arc vault - all yields below minimum"
        "Best available yield below minimum - USDC in Arc vault earns risk-free rate"
        55 none none .arc
      (r.1, emitted ++ [r.2])
    else (s1, emitted)
  | some best =>
    let currentBest := result.currentAllocation.head?
    let improvement := match currentBest with
      | some cb => best.netApy - cb.apy
      | none => best.netApy
    if improvement > profile.rebalanceThresholdApy then
      -- a PTB may be built and logged here; it does not change the state
      let position : YieldPosition :=
        { protocol := best.protocol, chain := best.chain, asset := best.asset
          amount := match currentBest with | some cb => cb.amount | none => 0
          amountUsd := match currentBest with | some cb => cb.amountUsd | none => 0
          apy := best.netApy
          earnedUsd := match currentBest with | some cb => cb.earnedUsd | none => 0
          depositedAt := env.now }
      let s2 := { s1 with positions := setPosition s1.positions position }
      let r := recordTreasuryDecision s2 env.now .rebalance
        ("+" ++ qs improvement ++ "% APY improvement")
        ("Rebalanced to " ++ best.protocol)
        ("Moved to " ++ best.protocol ++ " for " ++ qs improvement ++
          "% APY improvement on " ++ best.chain)
        s2.treasury.riskScore
        (match currentBest with | some cb => some cb.amountUsd | none => none)
        none .sui
      (r.1, emitted ++ [r.2])
    else (s1, emitted)

/-- The part of `runOptimizationCycle` after the safety-trigger check: the
recovery block followed (with no early return) by the standard block. -/
def cycleAfterSafety (cfg : TreasuryConfigData) (env : CycleEnv) (s : ExecState)
    (recoveryFromLow : ℚ) : ExecState × List TreasuryDecision :=
  cycleStandardStep cfg env (cycleRecoveryStep cfg env s recoveryFromLow)

/-- One `runOptimizationCycle`: refresh the bounded price history, compute
the trend signals, then run the safety trigger (which DOES return early when
it fires with a movable amount), the recovery trigger and the standard
yield-rebalance check.  Returns the new state and the decisions recorded
this cycle, in order. -/
def runOptimizationCycle (cfg : TreasuryConfigData) (env : CycleEnv) (s0 : ExecState) :
    ExecState × List TreasuryDecision :=
  let hist0 := s0.priceHistory ++ [⟨env.suiPrice, env.now⟩]
  let hist := if hist0.length > cfg.MAX_PRICE_HISTORY then hist0.tail else hist0
  let s := { s0 with priceHistory := hist }
  let recentLow := if hist.length > 2 then
      listMinimum ((lastN 10 hist).map (fun p => p.price))
    else env.suiPrice
  let priceFromRecent : ℚ :=
    if hist.length > 2 then
      match hist with
      | h0 :: _ => (env.suiPrice - h0.price) / h0.price * 100
      | [] => 0
    else 0
  let recoveryFromLow : ℚ :=
    if recentLow > 0 then (env.suiPrice - recentLow) / recentLow * 100 else 0
  if priceFromRecent < -cfg.SAFETY_THRESHOLD_PCT then
    let moveAmount := s.treasury.suiYieldTotal * cfg.safetyMoveFraction
    if moveAmount > 1 then
      if env.depositResult.success then
        let s2 := { s with treasury := { s.treasury with
          arcVaultBalance := s.treasury.arcVaultBalance + moveAmount
          suiYieldTotal := s.treasury.suiYieldTotal - moveAmount } }
        let r := recordTreasuryDecision s2 env.now .auto_safety
          ("SUI price drop " ++ qs priceFromRecent ++ "%")
          ("Auto-deposited $" ++ qs moveAmount ++ " USDC to Arc vault")
          ("SUI dropped " ++ qs (|priceFromRecent|) ++ "% - moving to Arc vault for safety")
          (((min 100 (jsRound (|priceFromRecent| * 5))) : ℤ) : ℚ)
          (some moveAmount) (some env.depositResult.txHash) .arc
        (r.1, [r.2])
      else (s, [])
    else cycleAfterSafety cfg env s recoveryFromLow
  else cycleAfterSafety cfg env s recoveryFromLow

-- ======== Scheduler state machine (`startAutoOptimizer` and friends) ======

/-- Observable scheduler state: whether the agent flag/timer is set and how
many executions of the async cycle body are currently in flight. -/
structure SchedulerState where
  agentRunning : Bool
  inFlightCycles : ℕ
deriving DecidableEq, Repr

/-- Event semantics of the scheduler source.  `start` models
`startAutoOptimizer` (sets the flag, runs one cycle immediately, installs
the interval); `tick` models the interval callback, which invokes
`runOptimizationCycle` unconditionally — the source consults no in-flight
guard before starting the async body, so a tick during a running cycle
begins a second overlapping execution; `finish` models an async cycle
completing; `stop` models `stopAutoOptimizer`, which clears the interval but
lets any in-flight cycle run to completion. -/
inductive SchedulerStep : SchedulerState → SchedulerState → Prop
  | start (s : SchedulerState) (h : s.agentRunning = false) :
      SchedulerStep s ⟨true, s.inFlightCycles + 1⟩
  | tick (s : SchedulerState) (h : s.agentRunning = true) :
      SchedulerStep s ⟨true, s.inFlightCycles + 1⟩
  | finish (s : SchedulerState) (n : ℕ) (h : s.inFlightCycles = n + 1) :
      SchedulerStep s ⟨s.agentRunning, n⟩
  | stop (s : SchedulerState) (h : s.agentRunning = true) :
      SchedulerStep s ⟨false, s.inFlightCycles⟩

/-- States reachable from the stopped, idle initial state. -/
def SchedulerReachable (s : SchedulerState) : Prop :=
  Relation.ReflTransGen SchedulerStep ⟨false, 0⟩ s

-- ======== Concrete sample inputs used by witnesses ========

/-- Sample portfolio used in witnesses: 100 SUI, some drift. -/
def exPortfolio : PortfolioState :=
  { sui := { balance := 100000000000, valueUsd := 40, percentage := 40 }
    arc := { balance := 60000000, valueUsd := 60, percentage := 60 }
    totalValueUsd := 100 }

/-- Sample price list with a crashed SUI price (scenario E, price 0.4). -/
def exPricesLow : List PriceData :=
  [{ asset := "SUI", price := 2/5, timestamp := 1000, source := "coingecko" }]

/-- Sample attractive yield opportunity (native, 12% net APY). -/
def exYieldOpp : YieldOpportunity :=
  { id := "navi-sui", protocol := "NAVI", chain := "Sui", asset := "SUI"
    apy := 12, tvl := 5000000, pool := "navi-sui", netApy := 12
    bridgeCostPct := 0, isNative := true, timestamp := 1000 }

/-- A yield-rebalance decision recorded one loop interval ago (relative to
`now = 1060000`), i.e. well inside the 5-interval hysteresis window. -/
def exRecentRebalance : AgentDecision :=
  { id := "decision-1-1000000", timestamp := 1000000, action := .YIELD_REBALANCE
    reason := "prior rebalance", amountIn := 0, amountOut := 0
    chain := "sui", status := .pending }

-- ======== Theorems ========

/-- C8: the rebalance policy `evaluateStrategy` checks crash safety first:
whenever the first SUI entry of the price list has spot price below the 0.5
floor, it returns a SAFETY_MOVE decision whose amount is half of the SUI
balance, regardless of yield opportunities, prior decisions or drift. -/
theorem crash_safety_first (now : ℤ) (counter : ℕ) (portfolio : PortfolioState)
    (prices : List PriceData) (prev : List AgentDecision)
    (ys : Option (List YieldOpportunity)) (sp : PriceData)
    (hfind : prices.find? (fun p => p.asset = "SUI") = some sp)
    (hlow : sp.price < 1/2) :
    (evaluateStrategy now counter portfolio prices prev ys).action = .SAFETY_MOVE ∧
    (evaluateStrategy now counter portfolio prices prev ys).amountIn =
      portfolio.sui.balance / 2 := by
  unfold evaluateStrategy
  rw [hfind]
  simp only [if_pos hlow]
  exact ⟨rfl, rfl⟩

/-- Scenario E witness for C8: at a spot price of 0.4 the crash-safety branch
fires even with a recent rebalance on record and a 12% yield available. -/
theorem crash_safety_first_witness :
    (evaluateStrategy 1060000 7 exPortfolio exPricesLow [exRecentRebalance]
        (some [exYieldOpp])).action = .SAFETY_MOVE ∧
    (evaluateStrategy 1060000 7 exPortfolio exPricesLow [exRecentRebalance]
        (some [exYieldOpp])).amountIn = 50000000000 :=
  ⟨(crash_safety_first 1060000 7 exPortfolio exPricesLow [exRecentRebalance]
      (some [exYieldOpp])
      { asset := "SUI", price := 2/5, timestamp := 1000, source := "coingecko" }
      (by simp [exPricesLow, List.find?]) (by norm_num)).1,
   (crash_safety_first 1060000 7 exPortfolio exPricesLow [exRecentRebalance]
      (some [exYieldOpp])
      { asset := "SUI", price := 2/5, timestamp := 1000, source := "coingecko" }
      (by simp [exPricesLow, List.find?]) (by norm_num)).2⟩

/-- Drift and no-action branches never produce a yield rebalance. -/
theorem evalStrategyDrift_not_yield (now : ℤ) (counter : ℕ)
    (portfolio : PortfolioState) (sp : Option PriceData)
    (ys : Option (List YieldOpportunity)) :
    (evalStrategyDrift now counter portfolio sp ys).action ≠ .YIELD_REBALANCE := by
  unfold evalStrategyDrift
  dsimp only
  split
  · split
    · split
      · simp [makeDecision]
      · simp [makeDecision]
    · simp [makeDecision]
  · simp [makeDecision]

/-- C3: hysteresis of the yield-rebalance rule.  Even when the best yield
opportunity exceeds the configured absolute floor, if the most recent
YIELD_REBALANCE decision is less than 5 scheduler loop intervals old,
`evaluateStrategy` does not trigger another yield rebalance. -/
theorem yield_rebalance_hysteresis (now : ℤ) (counter : ℕ)
    (portfolio : PortfolioState) (prices : List PriceData)
    (prev : List AgentDecision) (best : YieldOpportunity)
    (rest : List YieldOpportunity) (d : AgentDecision)
    (hfloor : best.netApy > AGENT_CONFIG.YIELD_REBALANCE_THRESHOLD)
    (hlast : (prev.filter (fun d => d.action = .YIELD_REBALANCE)).getLast? = some d)
    (hrecent : now - d.timestamp < AGENT_CONFIG.LOOP_INTERVAL * 5) :
    (evaluateStrategy now counter portfolio prices prev
        (some (best :: rest))).action ≠ .YIELD_REBALANCE := by
  have hblock : ¬ (now - d.timestamp > AGENT_CONFIG.LOOP_INTERVAL * 5) := by
    omega
  have hyield : ∀ spOpt : Option PriceData,
      (evalStrategyYield now counter portfolio spOpt prev
        (some (best :: rest))).action ≠ .YIELD_REBALANCE := by
    intro spOpt
    unfold evalStrategyYield
    dsimp only
    rw [hlast]
    rw [if_neg (by simp [hblock])]
    exact evalStrategyDrift_not_yield _ _ _ _ _
  unfold evaluateStrategy
  dsimp only
  split
  · split
    · simp [makeDecision]
    · exact hyield _
  · exact hyield _

/-- Witness for C3: a rebalance recorded one interval ago blocks a 12% best
yield from triggering again. -/
theorem yield_rebalance_hysteresis_witness :
    (evaluateStrategy 1060000 7 exPortfolio [] [exRecentRebalance]
        (some [exYieldOpp])).action ≠ .YIELD_REBALANCE :=
  yield_rebalance_hysteresis 1060000 7 exPortfolio [] [exRecentRebalance]
    exYieldOpp [] exRecentRebalance (by norm_num [exYieldOpp, AGENT_CONFIG])
    (by decide) (by decide)

-- ======== C4: risk scoring ========

/-- Price history of scenario A: $2.00, $1.90, $1.80 (a 10% drop). -/
def exHistoryA : List PriceHistoryEntry :=
  [{ price := 2, timestamp := 0 }, { price := 19/10, timestamp := 1 },
   { price := 9/5, timestamp := 2 }]

/-- C4: the executor risk assessment computes the three clamped components
and the weighted rounded composite exactly as the claim states, maps the
score to the 65/35 bands, and classifies scenario A (10% drop, neutral
funding, 3% best yield) as MEDIUM with a 40/60 split. -/
theorem risk_scoring_formula :
    (∀ pct : ℚ, priceRisk pct = min 100 (max 0 (max 0 (-pct) * 5))) ∧
    (∀ avg : ℚ, fundingRisk avg = min 100 (max 0 (-avg * 2 + 50))) ∧
    (∀ best : ℚ, yieldRisk best = min 100 (max 0 ((5 - best) * 20))) ∧
    (∀ pct avg best : ℚ, riskScoreOf pct avg best =
      jsRound ((2/5) * priceRisk pct + (3/10) * fundingRisk avg +
        (3/10) * yieldRisk best)) ∧
    (∀ s : ℤ, recommendedAllocation s =
      if s ≥ 65 then (70, 30, RiskLabel.HIGH)
      else if s ≥ 35 then (40, 60, RiskLabel.MEDIUM)
      else (15, 85, RiskLabel.LOW)) ∧
    priceChange24h exHistoryA (9/5) = -10 ∧
    priceRisk (-10) = 50 ∧
    riskScoreOf (-10) 0 3 = 47 ∧
    recommendedAllocation (riskScoreOf (-10) 0 3) = (40, 60, RiskLabel.MEDIUM) := by
  refine ⟨fun pct => ?_, fun avg => rfl, fun best => rfl, fun pct avg best => ?_,
    fun s => rfl, ?_, ?_, ?_, ?_⟩
  · unfold priceRisk
    have h1 : |min 0 pct| = max 0 (-pct) := by
      rcases le_total pct 0 with h | h
      · rw [min_eq_right h, abs_of_nonpos h, max_eq_right (neg_nonneg.mpr h)]
      · rw [min_eq_left h, abs_zero, max_eq_left (neg_nonpos.mpr h)]
    rw [h1]
  · unfold riskScoreOf
    ring_nf
  · norm_num [priceChange24h, exHistoryA]
  · norm_num [priceRisk]
  · norm_num [riskScoreOf, priceRisk, fundingRisk, yieldRisk, jsRound]
  · norm_num [riskScoreOf, priceRisk, fundingRisk, yieldRisk, jsRound,
      recommendedAllocation, TREASURY_CONFIG]

-- ======== C7: decision ledger bound and FIFO eviction ========

/-- Helper: one ledger record keeps the length within the capacity bound. -/
theorem ledgerRecord_length_le (l : List TreasuryDecision) (d : TreasuryDecision)
    (h : l.length ≤ 50) : (ledgerRecord l d).length ≤ 50 := by
  unfold ledgerRecord
  dsimp only
  split
  · simp
    omega
  · simp_all

/-- Helper: the ledger bound is an invariant of arbitrary record sequences. -/
theorem ledgerRecord_foldl_length_le (ds : List TreasuryDecision)
    (l : List TreasuryDecision) (h : l.length ≤ 50) :
    (ds.foldl ledgerRecord l).length ≤ 50 := by
  induction ds generalizing l with
  | nil => simpa using h
  | cons d ds ih => exact ih _ (ledgerRecord_length_le l d h)

/-- C7: the decision ledger never exceeds 50 entries; below capacity a record
is a plain append, and at capacity the evicted entry is exactly the oldest
one (the head) while the new decision lands at the end. -/
theorem decision_ledger_bounded_fifo :
    (∀ ds : List TreasuryDecision, (ds.foldl ledgerRecord []).length ≤ 50) ∧
    (∀ (l : List TreasuryDecision) (d : TreasuryDecision),
      l.length < 50 → ledgerRecord l d = l ++ [d]) ∧
    (∀ (l : List TreasuryDecision) (d : TreasuryDecision),
      l.length = 50 → ledgerRecord l d = l.tail ++ [d]) := by
  refine ⟨fun ds => ledgerRecord_foldl_length_le ds [] (by simp), ?_, ?_⟩
  · intro l d h
    unfold ledgerRecord
    rw [if_neg (by simp; omega)]
  · intro l d h
    unfold ledgerRecord
    rw [if_pos (by simp; omega)]
    match l, h with
    | a :: t, _ => rfl

/-- Sample treasury decision for witnesses. -/
def exDecision : TreasuryDecision :=
  { id := "td-1-0", timestamp := 0, type := .risk_assessment
    trigger := "Routine check", treasuryAction := "Risk assessment"
    reasoning := "sample", riskScore := 40, amount := none, txHash := none
    chain := .arc }

/-- Second sample treasury decision. -/
def exDecision2 : TreasuryDecision :=
  { exDecision with id := "td-2-0", type := .rebalance }

/-- Witness for C7: recording into a full 50-entry ledger evicts the head and
appends the new decision at the end. -/
theorem decision_ledger_bounded_fifo_witness :
    ledgerRecord (List.replicate 50 exDecision) exDecision2 =
      (List.replicate 50 exDecision).tail ++ [exDecision2] :=
  decision_ledger_bounded_fifo.2.2 (List.replicate 50 exDecision) exDecision2
    (by simp)

-- ======== C6: offline queue drain ========

/-- The result entry `processQueue` produces for one intent. -/
def resultOfIntent (executor : String → FnArgs → Except String String)
    (i : OfflineIntent) : ProcessResult :=
  match executor i.functionName i.args with
  | .ok r => ⟨i.id, r, true⟩
  | .error e => ⟨i.id, e, false⟩

/-- Helper: the results accumulated by the drain loop are exactly the pending
intents mapped in order, independent of the queue threading. -/
theorem processQueue_foldl_results
    (executor : String → FnArgs → Except String String)
    (pending : List OfflineIntent) (acc : List ProcessResult × List OfflineIntent) :
    (pending.foldl (processQueueStep executor) acc).1 =
      acc.1 ++ pending.map (resultOfIntent executor) := by
  induction pending generalizing acc with
  | nil => simp
  | cons i rest ih =>
    rw [List.foldl_cons, ih]
    unfold processQueueStep resultOfIntent
    cases hex : executor i.functionName i.args <;> simp [hex]

/-- Sample offline intent with the given id and function name. -/
def exIntent (id fn : String) (ts : ℤ) : OfflineIntent :=
  { id := id, timestamp := ts, functionName := fn, args := FnArgs.empty
    status := .queued, result := none, error := none }

/-- Scenario D queue: three intents enqueued while offline. -/
def exQueueABC : List OfflineIntent :=
  [exIntent "A" "getPortfolio" 1, exIntent "B" "moveToYield" 2,
   exIntent "C" "getSuiBalance" 3]

/-- Scenario D executor: the middle intent (B) throws, the others succeed. -/
def exExecutor : String → FnArgs → Except String String :=
  fun n _ => if n = "moveToYield" then .error "boom" else .ok "done"

/-- C6: `processQueue` processes pending intents strictly in enqueue order and
a failure does not block later intents — the result list is exactly the
pending list mapped in order; in scenario D (A, B fails, C) the results are
[A ok, B failed, C ok] and the final statuses are
[completed, failed, completed]. -/
theorem processQueue_fifo_failures_independent :
    (∀ (executor : String → FnArgs → Except String String)
       (queue : List OfflineIntent),
      (processQueue executor queue).1 =
        (getPending queue).map (resultOfIntent executor)) ∧
    (processQueue exExecutor exQueueABC).1 =
      [⟨"A", "done", true⟩, ⟨"B", "boom", false⟩, ⟨"C", "done", true⟩] ∧
    (processQueue exExecutor exQueueABC).2.map (fun i => i.status) =
      [.completed, .failed, .completed] := by
  refine ⟨fun executor queue => ?_, by decide, by decide⟩
  unfold processQueue
  rw [processQueue_foldl_results]
  simp

-- ======== C5: cached signal fetches and failure absorption ========

/-- Sample DeFi Llama pool row. -/
def exPool : DefiLlamaPool :=
  { pool := "pool1", chain := "Sui", project := "navi-lending", symbol := "SUI"
    tvlUsd := 5000000, apy := 8 }

/-- Counterexample to C5: `fetchDefiLlamaPools` holds a stale cached value
(cache written at t=0, queried at t=100000, past the 60s TTL) and the source
fails, yet the call propagates the exception to its caller instead of
serving the stale value or a sentinel. -/
theorem fetch_llama_propagates_error :
    (SignalCache.mk [exPool] 0).value ≠ [] ∧
    fetchDefiLlamaPools 100000 ⟨[exPool], 0⟩ (.error "DeFi Llama API error: 500") =
      .error "DeFi Llama API error: 500" := by
  exact ⟨by simp, rfl⟩

/-- C5 amended: `fetchPrices`, `fetchNaviPoolData` and `fetchFundingRates`
absorb source failures (stale cached value when present, else the defined
sentinel — the zeroed price list, resp. the initially-empty cached list) and
never propagate an exception; `fetchDefiLlamaPools` however only avoids the
source on a fresh cache hit and propagates the source failure otherwise. -/
theorem fetch_failure_absorption :
    (∀ (now : ℤ) (cache : SignalCache PriceData) (e : String),
      cache.value ≠ [] → fetchPrices now cache (.error e) = (cache.value, cache)) ∧
    (∀ (now : ℤ) (cache : SignalCache PriceData) (e : String),
      cache.value = [] → fetchPrices now cache (.error e) = (priceSentinel now, cache)) ∧
    (∀ (now : ℤ) (cache : SignalCache NaviPoolData) (e : String),
      fetchNaviPoolData now cache (.error e) = (cache.value, cache)) ∧
    (∀ (now : ℤ) (cache : SignalCache BluefinFundingRate) (e : String),
      fetchFundingRates now cache (.error e) = (cache.value, cache)) ∧
    (∀ (now : ℤ) (cache : SignalCache DefiLlamaPool) (e : String),
      ¬(cache.value ≠ [] ∧ now - cache.lastFetch < 60000) →
      fetchDefiLlamaPools now cache (.error e) = .error e) := by
  refine ⟨?_, ?_, ?_, ?_, ?_⟩
  · intro now cache e h
    unfold fetchPrices
    split
    · rfl
    · simp only [if_pos h]
  · intro now cache e h
    unfold fetchPrices
    simp [h]
  · intro now cache e
    unfold fetchNaviPoolData
    split
    · rfl
    · rfl
  · intro now cache e
    unfold fetchFundingRates
    split
    · rfl
    · rfl
  · intro now cache e h
    unfold fetchDefiLlamaPools
    rw [if_neg h]

/-- Witness for the amended C5: a concrete empty price cache falls back to
the sentinel; a concrete stale DeFi Llama cache propagates the error. -/
theorem fetch_failure_absorption_witness :
    fetchPrices 100000 ⟨[], 0⟩ (.error "CoinGecko 429") =
      (priceSentinel 100000, ⟨[], 0⟩) ∧
    fetchDefiLlamaPools 100000 ⟨[exPool], 0⟩ (.error "x") = .error "x" :=
  ⟨fetch_failure_absorption.2.1 100000 ⟨[], 0⟩ "CoinGecko 429" rfl,
   fetch_failure_absorption.2.2.2.2 100000 ⟨[exPool], 0⟩ "x"
     (by rintro ⟨-, h⟩; norm_num at h)⟩

-- ======== C9: yield opportunity invariant ========

/-- Well-formedness carried through the scan pipeline: the net-APY identity,
zero bridge cost for native entries, and zero bridge cost for NAVI-labelled
entries (which the overlay step relies on). -/
def OppWellFormed (o : YieldOpportunity) : Prop :=
  o.netApy = o.apy - o.bridgeCostPct ∧ (o.isNative = true → o.bridgeCostPct = 0) ∧
  (o.protocol = "NAVI" → o.bridgeCostPct = 0)

/-- Helper: converted DeFi Llama pools are well-formed, provided every
allow-list entry displayed as NAVI lives on Sui. -/
theorem poolToOpportunity_wellFormed (table : List ProtocolInfo) (now : ℤ)
    (llama : List DefiLlamaPool) (pool : DefiLlamaPool)
    (hN : ∀ p ∈ table, p.displayName = "NAVI" → p.chain = "Sui")
    (hmem : pool ∈ filterRelevantPools table llama) :
    OppWellFormed (poolToOpportunity table now pool) := by
  obtain ⟨-, hpred⟩ := List.mem_filter.mp hmem
  rw [List.any_eq_true] at hpred
  obtain ⟨p, hp, hcond⟩ := hpred
  rw [decide_eq_true_eq] at hcond
  obtain ⟨hproj, hchain, -, -⟩ := hcond
  have hfind : (table.find? (fun q =>
      decide (q.project = pool.project ∧ q.chain = pool.chain))).isSome := by
    rw [List.find?_isSome]
    exact ⟨p, hp, by rw [decide_eq_true_eq]; exact ⟨hproj.symm, hchain.symm⟩⟩
  unfold poolToOpportunity OppWellFormed
  dsimp only
  refine ⟨rfl, ?_, ?_⟩
  · intro hnat
    rw [decide_eq_true_eq] at hnat
    rw [if_pos hnat]
  · intro hnavi
    match hq : table.find? (fun q =>
        decide (q.project = pool.project ∧ q.chain = pool.chain)) with
    | some q =>
      rw [hq] at hnavi
      have hqmem := List.mem_of_find?_eq_some hq
      have hqpred := List.find?_some hq
      rw [decide_eq_true_eq] at hqpred
      have : pool.chain = "Sui" := hqpred.2 ▸ hN q hqmem hnavi
      rw [if_pos this]
    | none =>
      rw [hq] at hfind
      simp at hfind

/-- Helper: replacing the first element matched by `p` with `f` of it keeps a
predicate that `f` preserves on matched elements. -/
theorem updateFirst_forall {α : Type} (P : α → Prop) (p : α → Bool) (f : α → α)
    (l : List α) (hl : ∀ x ∈ l, P x)
    (hf : ∀ x, p x = true → P x → P (f x)) :
    ∀ y ∈ updateFirst p f l, P y := by
  induction l with
  | nil => intro y hy; simp [updateFirst] at hy
  | cons x xs ih =>
    intro y hy
    unfold updateFirst at hy
    by_cases hx : p x = true
    · rw [if_pos hx] at hy
      rcases List.mem_cons.mp hy with hy | hy
      · exact hy ▸ hf x hx (hl x (by simp))
      · exact hl y (List.mem_cons_of_mem x hy)
    · rw [if_neg hx] at hy
      rcases List.mem_cons.mp hy with hy | hy
      · exact hy ▸ hl x (by simp)
      · exact ih (fun z hz => hl z (List.mem_cons_of_mem x hz)) y hy

/-- Helper: one NAVI overlay step preserves well-formedness. -/
theorem overlayNavi_wellFormed (now : ℤ) (ops : List YieldOpportunity)
    (np : NaviPoolData) (hops : ∀ o ∈ ops, OppWellFormed o) :
    ∀ o ∈ overlayNavi now ops np, OppWellFormed o := by
  intro o ho
  unfold overlayNavi at ho
  split at ho
  · exact hops o ho
  · split at ho
    · refine updateFirst_forall OppWellFormed _ _ ops hops ?_ o ho
      intro x hpx hPx
      rw [decide_eq_true_eq] at hpx
      obtain ⟨h1, h2, h3⟩ := hPx
      have hbc : x.bridgeCostPct = 0 := h3 hpx.1
      exact ⟨by simp [hbc], fun h => by simpa using hbc, fun h => by simpa using hbc⟩
    · split at ho
      · rcases List.mem_append.mp ho with h | h
        · exact hops o h
        · have : o = naviDirectOpportunity now np := by simpa using h
          subst this
          refine ⟨by simp [naviDirectOpportunity], fun _ => rfl, fun _ => rfl⟩
      · exact hops o ho

/-- Helper: the full overlay fold preserves well-formedness. -/
theorem overlayNavi_foldl_wellFormed (now : ℤ) (naviPools : List NaviPoolData)
    (ops : List YieldOpportunity) (hops : ∀ o ∈ ops, OppWellFormed o) :
    ∀ o ∈ naviPools.foldl (overlayNavi now) ops, OppWellFormed o := by
  induction naviPools generalizing ops with
  | nil => simpa using hops
  | cons np rest ih =>
    rw [List.foldl_cons]
    exact ih (overlayNavi now ops np) (overlayNavi_wellFormed now ops np hops)

/-- C9: every opportunity produced by a scan satisfies
`netApy = apy - bridgeCostPct`, and every native opportunity (including the
NAVI direct-feed and the funding-rate-derived ones) has zero bridge cost.
The hypothesis pins down the only allow-list fact the overlay relies on:
entries displayed as NAVI live on Sui (true of the modelled table). -/
theorem scan_netapy_invariant (table : List ProtocolInfo) (now : ℤ)
    (llama : List DefiLlamaPool) (navi : List NaviPoolData)
    (bluefin : List BluefinYieldInfo)
    (hN : ∀ p ∈ table, p.displayName = "NAVI" → p.chain = "Sui")
    (o : YieldOpportunity) (ho : o ∈ scanYields table now llama navi bluefin) :
    o.netApy = o.apy - o.bridgeCostPct ∧ (o.isNative = true → o.bridgeCostPct = 0) := by
  unfold scanYields at ho
  rw [List.mem_mergeSort] at ho
  rcases List.mem_append.mp ho with h | h
  · have hW := overlayNavi_foldl_wellFormed now navi
      ((filterRelevantPools table llama).map (poolToOpportunity table now))
      (by
        intro x hx
        obtain ⟨pool, hpool, rfl⟩ := List.mem_map.mp hx
        exact poolToOpportunity_wellFormed table now llama pool hN hpool)
      o h
    exact ⟨hW.1, hW.2.1⟩
  · obtain ⟨bf, -, rfl⟩ := List.mem_map.mp h
    exact ⟨by simp [bluefinOpportunity], fun _ => rfl⟩

/-- NAVI direct-feed row used by the scan witness. -/
def exNaviPool : NaviPoolData :=
  { supplyApy := 9, borrowApy := 2, tvlUsd := 6000000, asset := "SUI" }

/-- The opportunity the witness scan produces: the DeFi Llama NAVI pool
refreshed by the direct feed. -/
def exScannedOpp : YieldOpportunity :=
  { id := "pool1", protocol := "NAVI", chain := "Sui", asset := "SUI"
    apy := 9, tvl := 6000000, pool := "pool1", netApy := 9
    bridgeCostPct := 0, isNative := true, timestamp := 0 }

/-- Witness for C9 at a concrete scan: the overlaid NAVI opportunity is a
member of the scan result and satisfies the invariant. -/
theorem scan_netapy_invariant_witness :
    exScannedOpp.netApy = exScannedOpp.apy - exScannedOpp.bridgeCostPct ∧
    (exScannedOpp.isNative = true → exScannedOpp.bridgeCostPct = 0) :=
  scan_netapy_invariant YIELD_PROTOCOLS 0 [exPool] [exNaviPool] [] (by decide)
    exScannedOpp
    (by
      unfold scanYields
      rw [List.mem_mergeSort]
      decide)

-- ======== C1: decisions recorded per optimization cycle ========

/-- Helper: the recovery block records at most one decision. -/
theorem cycleRecoveryStep_le_one (cfg : TreasuryConfigData) (env : CycleEnv)
    (s : ExecState) (rec : ℚ) : (cycleRecoveryStep cfg env s rec).2.length ≤ 1 := by
  unfold cycleRecoveryStep
  dsimp only
  split
  · split
    · split
      · simp
      · simp
    · simp
  · simp

/-- Helper: the standard block records at most one more decision. -/
theorem cycleStandardStep_le_one (cfg : TreasuryConfigData) (env : CycleEnv)
    (acc : ExecState × List TreasuryDecision) :
    (cycleStandardStep cfg env acc).2.length ≤ acc.2.length + 1 := by
  unfold cycleStandardStep
  dsimp only
  split
  · split
    · simp
    · simp
  · split
    · simp
    · simp

/-- Sample prior price history: price 10 at t=0, dipped to 8 at t=1. -/
def exCycleState : ExecState :=
  { riskLevel := .moderate
    treasury := { arcVaultBalance := 100, suiYieldTotal := 0, lastDecision := none
                  lastDecisionTime := 0, riskScore := 40
                  allocationArcPct := 100, allocationSuiPct := 0 }
    treasuryDecisions := []
    decisionIdCounter := 0
    positions := []
    priceHistory := [{ price := 10, timestamp := 0 }, { price := 8, timestamp := 1 }] }

/-- Cycle environment: price back at 10 (a 25% recovery from the low of 8,
no drop from the window start), attractive 9% native yield in both scans,
both vault calls succeed. -/
def exCycleEnv : CycleEnv :=
  { now := 2, suiPrice := 10
    recoveryScan := [exScannedOpp]
    standardScan := [exScannedOpp]
    depositResult := { success := true, txHash := "0xdep" }
    withdrawResult := { success := true, txHash := "0xwd" } }

/-- Counterexample to C1: in this concrete cycle the recovery trigger fires
and executes a partial redeploy, yet the cycle does not return early — the
standard yield-rebalance check still runs and records a second decision, so
two TreasuryDecisions are recorded in a single cycle. -/
theorem cycle_records_two_decisions :
    ((runOptimizationCycle TREASURY_CONFIG exCycleEnv exCycleState).2.map
      (fun d => d.type)) =
      [TreasuryDecisionType.auto_redeploy, TreasuryDecisionType.rebalance] := by
  norm_num [runOptimizationCycle, cycleAfterSafety, cycleRecoveryStep,
    cycleStandardStep, findBestYield, recordTreasuryDecision, ledgerRecord,
    setPosition, listMinimum, lastN, TREASURY_CONFIG, RISK_PROFILES,
    exCycleEnv, exCycleState, exScannedOpp, jsRound, updateFirst]

/-- C1 amended: a single optimization cycle records at most two treasury
decisions — the safety branch returns early with at most one, while the
recovery branch does not return early, so its redeploy decision can be
followed by a standard rebalance decision in the same cycle. -/
theorem cycle_at_most_two_decisions (cfg : TreasuryConfigData) (env : CycleEnv)
    (s : ExecState) : (runOptimizationCycle cfg env s).2.length ≤ 2 := by
  have hafter : ∀ (s' : ExecState) (rec : ℚ),
      (cycleAfterSafety cfg env s' rec).2.length ≤ 2 := by
    intro s' rec
    calc (cycleAfterSafety cfg env s' rec).2.length
        ≤ (cycleRecoveryStep cfg env s' rec).2.length + 1 :=
          cycleStandardStep_le_one cfg env _
      _ ≤ 2 := by
          have := cycleRecoveryStep_le_one cfg env s' rec
          omega
  unfold runOptimizationCycle
  dsimp only
  repeat' split
  all_goals first
    | exact hafter _ _
    | simp

-- ======== C2: scheduler re-entrancy ========

/-- Counterexample to C2: from the stopped idle state, starting the
optimizer and then one timer tick while the first cycle is still in flight
reaches a state with two overlapping cycle executions — the tick is not
skipped. -/
theorem scheduler_overlap_reachable :
    SchedulerReachable ⟨true, 2⟩ ∧ ¬((2 : ℕ) ≤ 1) :=
  ⟨Relation.ReflTransGen.tail
      (Relation.ReflTransGen.single (SchedulerStep.start ⟨false, 0⟩ rfl))
      (SchedulerStep.tick ⟨true, 1⟩ rfl),
   by norm_num⟩

/-- C2 amended: while the scheduler is Running, a timer tick always begins
another execution of the cycle body — the source consults no in-flight
guard, so the tick is never skipped (the post-tick state strictly increases
the overlap count instead of equalling the pre-tick state). -/
theorem scheduler_tick_never_skipped (s : SchedulerState)
    (h : s.agentRunning = true) :
    SchedulerStep s ⟨true, s.inFlightCycles + 1⟩ ∧
    (⟨true, s.inFlightCycles + 1⟩ : SchedulerState) ≠ s := by
  refine ⟨SchedulerStep.tick s h, fun he => ?_⟩
  have h2 := congrArg SchedulerState.inFlightCycles he
  simp at h2

/-- Witness for the amended C2: a tick from the Running state with one cycle
in flight transitions to two in flight. -/
theorem scheduler_tick_never_skipped_witness :
    SchedulerStep ⟨true, 1⟩ ⟨true, 2⟩ ∧
    (⟨true, 2⟩ : SchedulerState) ≠ ⟨true, 1⟩ :=
  scheduler_tick_never_skipped ⟨true, 1⟩ rfl

-- ======== C10: input validation in the executor ========

/-- Execution state with no positions, used by the executor scenarios. -/
def exExecStateEmpty : ExecState :=
  { riskLevel := .moderate
    treasury := { arcVaultBalance := 0, suiYieldTotal := 0, lastDecision := none
                  lastDecisionTime := 0, riskScore := 0
                  allocationArcPct := 0, allocationSuiPct := 100 }
    treasuryDecisions := []
    decisionIdCounter := 0
    positions := []
    priceHistory := [] }

/-- Executor environment for the moveToYield scenario: no delegator, the
scanned list holds the native NAVI opportunity, and the router resolves
"navi" to the canonical name. -/
def exC10Env : ExecEnv :=
  { now := 5, suiPrice := 2, hasDelegator := false, delegatorResult := none
    vaultDepositResult := { success := true, txHash := "0xd" }
    vaultWithdrawResult := { success := true, txHash := "0xw" }
    scanned := [exScannedOpp]
    resolveProtocol := fun n => if n = "navi" then some "NAVI" else none
    protocolActionSimulated := true }

/-- Arguments with a zero (non-positive) amount for a yield move. -/
def exZeroArgs : FnArgs :=
  { amount := some 0, protocol := some "navi", level := none, reason := none }

/-- Counterexample to C10: a yield move with the non-positive amount 0 is
NOT rejected before side effects — `moveToYield` reads
`(args.amount as number) || 100`, so the zero amount silently becomes 100,
the protocol deposit action is built and a position of amount 100 is
recorded where the initial state had none. -/
theorem move_to_yield_zero_amount_not_rejected :
    (executeFunction exC10Env exExecStateEmpty "moveToYield" exZeroArgs).txBuilt = true ∧
    ((executeFunction exC10Env exExecStateEmpty "moveToYield" exZeroArgs).state.positions.map
      (fun p => p.amount)) = [100] ∧
    exExecStateEmpty.positions = [] := by
  refine ⟨?_, ?_, rfl⟩ <;>
  · simp [executeFunction, orFalsyQ, orFalsyS, setPosition, updateFirst,
      exC10Env, exExecStateEmpty, exZeroArgs, exScannedOpp, List.find?, jsFloor]
    norm_num

/-- C10 amended: the vault deposit (`depositToVault`, `moveToArcVault`), the
vault withdrawal (`withdrawFromArcVault`) and the risk-level setter reject a
non-positive amount resp. a malformed level before any side effect: the
state is returned unchanged and no transaction is built.  The yield move
(`moveToYield`) is excluded: it never validates its amount — a missing or
zero amount silently becomes 100 and the move proceeds, recording a
position; a negative amount is not rejected up front either, it aborts only
when the transaction builder's u64 serializer throws (for router-resolvable
targets), and is recorded as-is when the router cannot resolve the name. -/
theorem invalid_input_rejected (env : ExecEnv) (s : ExecState) (args : FnArgs)
    (hamt : orFalsyQ args.amount 0 ≤ 0)
    (hlvl : orFalsyS args.level "moderate" ∉
      (["conservative", "moderate", "aggressive"] : List String)) :
    (executeFunction env s "depositToVault" args).state = s ∧
    (executeFunction env s "depositToVault" args).txBuilt = false ∧
    (executeFunction env s "moveToArcVault" args).state = s ∧
    (executeFunction env s "moveToArcVault" args).txBuilt = false ∧
    (executeFunction env s "withdrawFromArcVault" args).state = s ∧
    (executeFunction env s "withdrawFromArcVault" args).txBuilt = false ∧
    (executeFunction env s "setRiskLevel" args).state = s ∧
    (executeFunction env s "setRiskLevel" args).txBuilt = false := by
  unfold executeFunction
  simp [hamt, hlvl]

/-- Witness for the amended C10: a concrete call with amount -3 and level
"reckless" is rejected by all four validated entry points with the state
untouched. -/
theorem invalid_input_rejected_witness :
    (executeFunction exC10Env exExecStateEmpty "moveToArcVault"
      ⟨some (-3), none, some "reckless", none⟩).state = exExecStateEmpty ∧
    (executeFunction exC10Env exExecStateEmpty "setRiskLevel"
      ⟨some (-3), none, some "reckless", none⟩).state = exExecStateEmpty :=
  ⟨(invalid_input_rejected exC10Env exExecStateEmpty
      ⟨some (-3), none, some "reckless", none⟩
      (by norm_num [orFalsyQ]) (by simp [orFalsyS])).2.2.1,
   (invalid_input_rejected exC10Env exExecStateEmpty
      ⟨some (-3), none, some "reckless", none⟩
      (by norm_num [orFalsyQ]) (by simp [orFalsyS])).2.2.2.2.2.2.1⟩

end OneProtocol
